import Mathlib

/-!
Verification development for the Bedrock SAW troubleshooting orchestration
layer.  The repository ships a CDK stack (`lib/bedrock-agent-saw-stack.ts`),
the generated OpenAPI schema (`bedrock_agent_schemas/schema.json`) and a
README; the lambda orchestration code (`lambda/saw_troubleshooting/app.py`
and `utils.py`) is not part of the available sources, so those components
are modelled from the specification where needed, each such definition
marked `Modelled from the spec:`.
-/

/-! ## Embedding of the generated OpenAPI schema (bedrock_agent_schemas/schema.json) -/

/-- One property of a JSON object schema, as written in schema.json.
`itemsRef` is the `$ref` of the `items` entry for array-typed properties
(empty when absent); `itemsAnyOf` lists the `anyOf` alternative types of
the `items` entry (empty when absent). -/
structure JsonProperty where
  name : String
  type : String
  title : String
  description : String
  itemsRef : String
  itemsAnyOf : List String
deriving DecidableEq

/-- A named object schema from `components.schemas` of schema.json. -/
structure ObjectSchema where
  title : String
  properties : List JsonProperty
  required : List String
deriving DecidableEq

/-- `Body_troubleshoot_ecs_container_instance_troubleshoot_ecs_container_instance_post`
from schema.json. -/
def bodyEcsContainerInstance : ObjectSchema :=
  { title := "Body_troubleshoot_ecs_container_instance_troubleshoot_ecs_container_instance_post"
    properties :=
      [ { name := "cluster_name", type := "string", title := "Cluster Name"
          description := "The name of the ECS cluster", itemsRef := "", itemsAnyOf := [] }
      , { name := "container_instance_id", type := "string", title := "Container Instance Id"
          description := "The ID of the container instance", itemsRef := "", itemsAnyOf := [] } ]
    required := ["cluster_name", "container_instance_id"] }

/-- `Body_troubleshoot_eks_worker_node_troubleshoot_eks_worker_node_post`
from schema.json. -/
def bodyEksWorkerNode : ObjectSchema :=
  { title := "Body_troubleshoot_eks_worker_node_troubleshoot_eks_worker_node_post"
    properties :=
      [ { name := "cluster_name", type := "string", title := "Cluster Name"
          description := "The name of the EKS cluster", itemsRef := "", itemsAnyOf := [] }
      , { name := "worker_id", type := "string", title := "Worker Id"
          description := "The ID of the worker node", itemsRef := "", itemsAnyOf := [] } ]
    required := ["cluster_name", "worker_id"] }

/-- `Body_troubleshoot_s3_lambda_troubleshoot_s3_lambda_post` from schema.json. -/
def bodyS3Lambda : ObjectSchema :=
  { title := "Body_troubleshoot_s3_lambda_troubleshoot_s3_lambda_post"
    properties :=
      [ { name := "s3_bucket_name", type := "string", title := "S3 Bucket Name"
          description := "The name of the S3 bucket", itemsRef := "", itemsAnyOf := [] }
      , { name := "lambda_function_arn", type := "string", title := "Lambda Function Arn"
          description := "The ARN of the Lambda function", itemsRef := "", itemsAnyOf := [] } ]
    required := ["s3_bucket_name", "lambda_function_arn"] }

/-- `HTTPValidationError` from schema.json: an object with a `detail` array of
`ValidationError` items. -/
def httpValidationError : ObjectSchema :=
  { title := "HTTPValidationError"
    properties :=
      [ { name := "detail", type := "array", title := "Detail"
          description := "", itemsRef := "#/components/schemas/ValidationError"
          itemsAnyOf := [] } ]
    required := [] }

/-- `ValidationError` from schema.json.  Note: the `properties` map declares
only `loc` and `type`, but the `required` list demands `loc`, `msg` and
`type`, exactly as in the source file. -/
def validationError : ObjectSchema :=
  { title := "ValidationError"
    properties :=
      [ { name := "loc", type := "array", title := "Location"
          description := "", itemsRef := "", itemsAnyOf := ["string", "integer"] }
      , { name := "type", type := "string", title := "Error Type"
          description := "", itemsRef := "", itemsAnyOf := [] } ]
    required := ["loc", "msg", "type"] }

/-- The `components.schemas` map of schema.json, in source order. -/
def componentSchemas : List (String × ObjectSchema) :=
  [ ("Body_troubleshoot_ecs_container_instance_troubleshoot_ecs_container_instance_post",
       bodyEcsContainerInstance)
  , ("Body_troubleshoot_eks_worker_node_troubleshoot_eks_worker_node_post",
       bodyEksWorkerNode)
  , ("Body_troubleshoot_s3_lambda_troubleshoot_s3_lambda_post", bodyS3Lambda)
  , ("HTTPValidationError", httpValidationError)
  , ("ValidationError", validationError) ]

/-- Resolve a `#/components/schemas/<name>` reference against the components
map of schema.json. -/
def resolveRef (ref : String) : Option ObjectSchema :=
  (componentSchemas.find? (fun kv => "#/components/schemas/" ++ kv.1 == ref)).map Prod.snd

/-- One response entry of an operation: HTTP status code and either the
`$ref` of its schema or the literal `"object"` for the inline untyped object
of the 200 responses. -/
structure ApiResponse where
  status : String
  schemaRef : String
deriving DecidableEq

/-- One operation of schema.json (each path of the document has exactly one
method, `post`). -/
structure ApiOperation where
  path : String
  method : String
  summary : String
  description : String
  operationId : String
  requestBodyRef : String
  requestBodyRequired : Bool
  responses : List ApiResponse
deriving DecidableEq

/-- The `paths` section of schema.json: every path/method pair of the
document, in source order. -/
def apiOperations : List ApiOperation :=
  [ { path := "/troubleshoot-eks-worker-node"
      method := "post"
      summary := "POST /troubleshoot-eks-worker-node"
      description := "Troubleshoot EKS worker node failed to join the cluster"
      operationId := "troubleshoot_eks_worker_node_troubleshoot_eks_worker_node_post"
      requestBodyRef :=
        "#/components/schemas/Body_troubleshoot_eks_worker_node_troubleshoot_eks_worker_node_post"
      requestBodyRequired := true
      responses :=
        [ { status := "422", schemaRef := "#/components/schemas/HTTPValidationError" }
        , { status := "200", schemaRef := "object" } ] }
  , { path := "/troubleshoot-ecs-container-instance"
      method := "post"
      summary := "POST /troubleshoot-ecs-container-instance"
      description := "Troubleshoot ECS container instance failed to register with the cluster"
      operationId :=
        "troubleshoot_ecs_container_instance_troubleshoot_ecs_container_instance_post"
      requestBodyRef :=
        "#/components/schemas/Body_troubleshoot_ecs_container_instance_troubleshoot_ecs_container_instance_post"
      requestBodyRequired := true
      responses :=
        [ { status := "422", schemaRef := "#/components/schemas/HTTPValidationError" }
        , { status := "200", schemaRef := "object" } ] }
  , { path := "/troubleshoot-s3-lambda"
      method := "post"
      summary := "POST /troubleshoot-s3-lambda"
      description := "Troubleshoot why an Amazon S3 event notification failed to trigger the specified AWS Lambda function."
      operationId := "troubleshoot_s3_lambda_troubleshoot_s3_lambda_post"
      requestBodyRef :=
        "#/components/schemas/Body_troubleshoot_s3_lambda_troubleshoot_s3_lambda_post"
      requestBodyRequired := true
      responses :=
        [ { status := "422", schemaRef := "#/components/schemas/HTTPValidationError" }
        , { status := "200", schemaRef := "object" } ] }
  ]

/-- The required-field list of the request body of an operation, resolved
through the components map ([] when the reference does not resolve). -/
def operationRequiredFields (op : ApiOperation) : List String :=
  ((resolveRef op.requestBodyRef).map ObjectSchema.required).getD []

/-! ## The orchestration core, modelled from the spec

The lambda sources (`lambda/saw_troubleshooting/app.py`, `utils.py`) are not
among the available source files; only their generated schema, IAM policy and
README callers are.  The definitions below are therefore modelled from the
specification text (sections 3 to 5 of the spec) and from the call pattern
the README shows for `execute_automation`. -/

/-- The three supported troubleshooting scenarios (schema.json paths). -/
inductive Scenario
  | eksWorkerNode
  | ecsContainerInstance
  | s3Lambda
deriving DecidableEq

/-- Modelled from the spec: the per-scenario binding descriptor of §4.1/§9 of
the spec (required caller fields in order, with the remote parameter name each
maps to).  The caller field names come from schema.json (under src); the
remote names for the EKS scenario come from the end-to-end property of §8 of
the spec, the others follow the same convention shown by the README
`execute_automation` example.  The concrete table lives in
`lambda/saw_troubleshooting/app.py`, which is not among the sources. -/
def bindingRule : Scenario → List (String × String)
  | .eksWorkerNode => [("cluster_name", "ClusterName"), ("worker_id", "WorkerID")]
  | .ecsContainerInstance =>
      [("cluster_name", "ClusterName"), ("container_instance_id", "ContainerInstanceId")]
  | .s3Lambda => [("s3_bucket_name", "S3BucketName"), ("lambda_function_arn", "LambdaFunctionArn")]

/-- Modelled from the spec: the workflow (SAW document) identifier of each
scenario; the concrete mapping lives in `app.py`, which is not among the
sources. -/
def workflowId : Scenario → String
  | .eksWorkerNode => "AWSSupport-TroubleshootEKSWorkerNode"
  | .ecsContainerInstance => "AWSSupport-TroubleshootECSContainerInstance"
  | .s3Lambda => "AWSSupport-TroubleshootS3EventNotificationsToLambda"

/-- The caller-facing required fields of a scenario, in binding order. -/
def requiredFields (sc : Scenario) : List String :=
  (bindingRule sc).map Prod.fst

/-- First value bound to a key in a caller parameter mapping. -/
def lookupParam (ps : List (String × String)) (k : String) : Option String :=
  (ps.find? (fun p => p.1 == k)).map Prod.snd

/-- Whether a string is empty after trimming leading and trailing
whitespace — equivalently, whether every character is whitespace. -/
def trimmedEmpty (v : String) : Bool :=
  v.toList.all Char.isWhitespace

/-- A caller field is missing when it is absent from the mapping or its value
is empty after trimming whitespace (spec §4.1). -/
def fieldMissing (ps : List (String × String)) (k : String) : Bool :=
  match lookupParam ps k with
  | none => true
  | some v => trimmedEmpty v

/-- JSON-Schema validation of a request body against an object schema of
schema.json: every `required` property must be present; the schemas place no
`additionalProperties` restriction, so unknown members never invalidate a
body. -/
def bodyValid (schema : ObjectSchema) (ps : List (String × String)) : Bool :=
  schema.required.all (fun f => (lookupParam ps f).isSome)

/-- The request body schema of a scenario, from schema.json. -/
def scenarioBodySchema : Scenario → ObjectSchema
  | .eksWorkerNode => bodyEksWorkerNode
  | .ecsContainerInstance => bodyEcsContainerInstance
  | .s3Lambda => bodyS3Lambda

/-- Binder failure (spec §7 error taxonomy). -/
inductive BindError
  | MissingParameter (name : String)
deriving DecidableEq

/-- Modelled from the spec: the Parameter Binder of §4.1 over one binding
rule list.  Walks the required caller fields in order; fails with
`MissingParameter` on the first field that is absent or empty after trimming,
otherwise wraps each raw value in a one-element sequence under the remote
parameter name, with no other transformation. -/
def bindList : List (String × String) → List (String × String) →
    Except BindError (List (String × List String))
  | [], _ => .ok []
  | cr :: rest, ps =>
    match lookupParam ps cr.1 with
    | none => .error (.MissingParameter cr.1)
    | some v =>
      if trimmedEmpty v then .error (.MissingParameter cr.1)
      else
        match bindList rest ps with
        | .error e => .error e
        | .ok m => .ok ((cr.2, [v]) :: m)

/-- Modelled from the spec: the Parameter Binder of §4.1 for a scenario. -/
def bindParams (sc : Scenario) (ps : List (String × String)) :
    Except BindError (List (String × List String)) :=
  bindList (bindingRule sc) ps

/-- Execution status (spec §3 data model). -/
inductive ExecutionStatus
  | Pending
  | InProgress
  | Success
  | Failed
  | Cancelled
  | TimedOut
deriving DecidableEq

/-- `Pending`/`InProgress` are the non-terminal statuses (spec §3). -/
def ExecutionStatus.isTerminal : ExecutionStatus → Bool
  | .Pending => false
  | .InProgress => false
  | _ => true

/-- Outcome of one automation step (spec §3). -/
inductive StepOutcome
  | Success
  | Failed
  | Skipped
deriving DecidableEq

/-- One named step of the execution with its unstructured output payload
(spec §3). -/
structure StepResult where
  name : String
  outcome : StepOutcome
  output : List (String × String)
deriving DecidableEq

/-! ## Poller model (spec §4.3 / §5)

Modelled from the spec: the Poller lives in `utils.py`, which is not among
the sources.  The remote engine is an oracle giving, for the k-th status
query, the status and step results it would report.  Transient query
failures are not modelled (every query here succeeds); time is in whole
seconds. -/

/-- Result of one polling run: final status, the step results known at that
point, and the total number of status queries issued. -/
structure PollResult where
  status : ExecutionStatus
  steps : List StepResult
  queries : Nat
deriving DecidableEq

/-- Modelled from the spec: the polling loop of §4.3.  At each iteration it
queries the remote engine once; a terminal status is returned at once, and
otherwise the loop sleeps for the current interval — unless that would pass
the deadline, in which case it stops querying and reports `TimedOut`.  The
interval then doubles, capped at `cap`.  `fuel` bounds the recursion; `poll`
supplies enough for any deadline. -/
def pollAux (remote : Nat → ExecutionStatus × List StepResult) (cap deadline : Nat) :
    Nat → Nat → Nat → Nat → PollResult
  | 0, _, _, k => { status := .TimedOut, steps := [], queries := k }
  | fuel + 1, t, i, k =>
    let q := remote k
    if q.1.isTerminal then { status := q.1, steps := q.2, queries := k + 1 }
    else if deadline < t + i then { status := .TimedOut, steps := q.2, queries := k + 1 }
    else pollAux remote cap deadline fuel (t + i) (min (2 * i) cap) (k + 1)

/-- Modelled from the spec: the Execution Poller of §4.3, started at time 0
with the initial interval `init`. -/
def poll (remote : Nat → ExecutionStatus × List StepResult) (init cap deadline : Nat) :
    PollResult :=
  pollAux remote cap deadline (deadline + 1) 0 init 0

/-- The (query time, next interval) state of the polling loop before its j-th
status query, for initial interval `init` and cap `cap`. -/
def pollSchedule (init cap : Nat) : Nat → Nat × Nat
  | 0 => (0, init)
  | j + 1 =>
    let s := pollSchedule init cap j
    (s.1 + s.2, min (2 * s.2) cap)

/-- Wall-clock time of the j-th status query of the polling loop. -/
def queryTime (init cap j : Nat) : Nat :=
  (pollSchedule init cap j).1

/-- Poll interval the loop sleeps for after its j-th status query. -/
def intervalAt (init cap j : Nat) : Nat :=
  (pollSchedule init cap j).2

/-! ## Result Extractor model (spec §4.4) -/

/-- One finding of the diagnostic report; `incomplete` is the explicit
partial-result flag of the Cancelled/TimedOut mapping rule of §4.4. -/
structure Finding where
  step : String
  detail : List (String × String)
  incomplete : Bool
deriving DecidableEq

/-- The externally visible diagnostic report (spec §3). -/
structure DiagnosticReport where
  status : ExecutionStatus
  summary : String
  findings : List Finding
  remediation : List String
deriving DecidableEq

/-- Modelled from the spec: whether a step output indicates a detected
anomaly even though the execution succeeded (§4.4; the exact per-scenario
parsing rules are an open question of §9, so any output value mentioning a
misconfiguration counts here). -/
def indicatesAnomaly (s : StepResult) : Bool :=
  s.output.any (fun kv => (kv.2.splitOn "misconfigured").length > 1)

/-- Modelled from the spec: the Result Extractor of §4.4, mapping a terminal
status and the ordered step results to a DiagnosticReport. -/
def extractReport (st : ExecutionStatus) (steps : List StepResult) : DiagnosticReport :=
  match st with
  | .Success =>
    { status := .Success
      summary := "The check passed."
      findings :=
        (steps.filter indicatesAnomaly).map
          (fun s => { step := s.name, detail := s.output, incomplete := false })
      remediation := [] }
  | .Failed =>
    match steps.find? (fun s => s.outcome == .Failed) with
    | some s =>
      { status := .Failed
        summary := "Step " ++ s.name ++ " failed."
        findings := [{ step := s.name, detail := s.output, incomplete := false }]
        remediation := [] }
    | none =>
      { status := .Failed
        summary := "The execution failed."
        findings := []
        remediation := [] }
  | _ =>
    { status := st
      summary := "The run did not complete in time."
      findings :=
        (steps.filter (fun s => s.outcome == .Success)).map
          (fun s => { step := s.name, detail := s.output, incomplete := true })
      remediation := [] }

/-- Ambient state of the hosting environment visible to a run of the
Extractor (wall clock, request identity); used to state that extraction
neither reads nor writes it. -/
structure AmbientState where
  clock : Nat
  requestId : String
deriving DecidableEq

/-- One run of the Extractor inside the hosting environment: it returns the
report together with the (unchanged) ambient state. -/
def runExtract (w : AmbientState) (st : ExecutionStatus) (steps : List StepResult) :
    DiagnosticReport × AmbientState :=
  (extractReport st steps, w)

/-! ## Request Router model (spec §4.5) with a remote-call trace -/

/-- A call this layer can place against the remote workflow engine.
`stopExecution` is included so that never issuing it is expressible. -/
inductive RemoteCall
  | startExecution (wf : String) (params : List (String × List String))
  | getExecutionStatus (handle : String)
  | stopExecution (handle : String)
deriving DecidableEq

/-- Router-level failure (spec §7 error taxonomy). -/
inductive RouteError
  | missingParameter (name : String)
  | launchRejected (reason : String)
deriving DecidableEq

/-- Modelled from the spec: the Request Router of §4.5 driving Binder,
Launcher, Poller and Extractor in order, instrumented with the list of
remote-engine calls it places.  `launch` is the remote StartExecution
operation (returning a handle or a synchronous rejection reason) and
`remote` the status oracle of the Poller. -/
def routeRequest (launch : String → List (String × List String) → Except String String)
    (remote : Nat → ExecutionStatus × List StepResult) (init cap deadline : Nat)
    (sc : Scenario) (ps : List (String × String)) :
    Except RouteError DiagnosticReport × List RemoteCall :=
  match bindParams sc ps with
  | .error (.MissingParameter n) => (.error (.missingParameter n), [])
  | .ok bound =>
    let wf := workflowId sc
    match launch wf bound with
    | .error r => (.error (.launchRejected r), [.startExecution wf bound])
    | .ok handle =>
      let pr := poll remote init cap deadline
      (.ok (extractReport pr.status pr.steps),
        .startExecution wf bound ::
          (List.range pr.queries).map (fun _ => .getExecutionStatus handle))

/-! ## Deployment constants (lib/bedrock-agent-saw-stack.ts) -/

/-- The hard wall-clock budget of the action-group function, from
`timeout: cdk.Duration.minutes(3)` in `createActionGroupFunction` of the CDK
stack, in seconds. -/
def actionGroupFunctionTimeoutSeconds : Nat := 3 * 60

/-- Modelled from the spec: the overall request deadline the Router passes to
the Poller (§4.5/§6).  Its concrete value lives in
`lambda/saw_troubleshooting/utils.py`, which is not among the sources; the
spec requires it to be strictly below the hosting budget with margin for
response serialization, modelled here as a ten-second margin. -/
def routerDeadlineSeconds : Nat := actionGroupFunctionTimeoutSeconds - 10

/-! ## IAM policy embedding (lib/bedrock-agent-saw-stack.ts) -/

/-- One IAM policy statement of the CDK stack. -/
structure PolicyStatement where
  effect : String
  actions : List String
  resources : List String
deriving DecidableEq

/-- The `TroubleshootAWSResourcesLambdaExecutionPolicy` inline policy of
`createLambdaExecutionRole` in the CDK stack, statement by statement in
source order. -/
def troubleshootPolicy : List PolicyStatement :=
  [ { effect := "Allow"
      actions := ["iam:PassRole", "ssm:StartAutomationExecution", "ssm:GetAutomationExecution"]
      resources := ["*"] }
  , { effect := "Allow"
      actions := ["logs:CreateLogGroup", "logs:CreateLogStream", "logs:PutLogEvents"]
      resources := ["arn:aws:logs:*:*:*"] }
  , { effect := "Allow"
      actions :=
        [ "ec2:Describe*", "eks:DescribeCluster"
        , "iam:GetInstanceProfile", "iam:GetRole", "iam:ListAttachedRolePolicies"
        , "ssm:DescribeInstanceInformation", "ssm:ListCommandInvocations"
        , "ssm:ListCommands", "ssm:SendCommand"
        , "s3:GetBucketNotification", "s3:ListBucket", "s3:GetBucketPolicy"
        , "s3:GetBucketLocation"
        , "lambda:GetFunction", "lambda:GetPolicy", "lambda:ListEventSourceMappings"
        , "lambda:GetEventSourceMapping", "lambda:ListFunctionEventInvokeConfigs" ]
      resources := ["*"] }
  , { effect := "Allow"
      actions :=
        [ "ec2:DescribeIamInstanceProfileAssociations"
        , "iam:SimulateCustomPolicy", "iam:SimulatePrincipalPolicy" ]
      resources := ["*"] }
  ]

/-- IAM action-pattern matching, fuel-bounded so that it reduces by
computation: `*` in a pattern matches any (possibly empty) run of
characters.  Every recursive call shrinks `ps.length + cs.length`, so fuel
`ps.length + cs.length + 1` always suffices. -/
def globMatchAux : Nat → List Char → List Char → Bool
  | 0, _, _ => false
  | _ + 1, [], [] => true
  | _ + 1, [], _ :: _ => false
  | fuel + 1, '*' :: ps, [] => globMatchAux fuel ps []
  | fuel + 1, '*' :: ps, c :: cs =>
    globMatchAux fuel ps (c :: cs) || globMatchAux fuel ('*' :: ps) cs
  | _ + 1, _ :: _, [] => false
  | fuel + 1, p :: ps, c :: cs => p == c && globMatchAux fuel ps cs

/-- IAM action-pattern matching with sufficient fuel. -/
def globMatch (ps cs : List Char) : Bool :=
  globMatchAux (ps.length + cs.length + 1) ps cs

/-- Whether the Lambda execution role policy allows an IAM action. -/
def policyAllows (act : String) : Bool :=
  troubleshootPolicy.any
    (fun s => s.effect == "Allow" && s.actions.any (fun pat => globMatch pat.toList act.toList))


/-! ## Lemmas about the Parameter Binder -/

/-- Unfolding equation of `bindList` on a non-empty rule list. -/
lemma bindList_cons (cr : String × String) (rest ps : List (String × String)) :
    bindList (cr :: rest) ps =
      match lookupParam ps cr.1 with
      | none => .error (.MissingParameter cr.1)
      | some v =>
        if trimmedEmpty v then .error (.MissingParameter cr.1)
        else
          match bindList rest ps with
          | .error e => .error e
          | .ok m => .ok ((cr.2, [v]) :: m) := rfl

/-- Unfolding equation of `fieldMissing`. -/
lemma fieldMissing_def (ps : List (String × String)) (k : String) :
    fieldMissing ps k =
      match lookupParam ps k with
      | none => true
      | some v => trimmedEmpty v := rfl

/-- When a field is not missing, the lookup yields a value that is not empty
after trimming. -/
lemma fieldMissing_false (ps : List (String × String)) (k : String)
    (h : fieldMissing ps k = false) :
    ∃ v, lookupParam ps k = some v ∧ trimmedEmpty v = false := by
  rw [fieldMissing_def] at h
  cases hl : lookupParam ps k with
  | none => rw [hl] at h; simp at h
  | some v => rw [hl] at h; simp at h; exact ⟨v, rfl, h⟩

/-- When a field is missing and present, its value is empty after trimming. -/
lemma fieldMissing_true_some (ps : List (String × String)) (k v : String)
    (hl : lookupParam ps k = some v) (h : fieldMissing ps k = true) :
    trimmedEmpty v = true := by
  rw [fieldMissing_def, hl] at h
  simpa using h

/-- If some required field of a rule list is missing, `bindList` fails with
`MissingParameter` naming a field of the rule that is indeed missing. -/
lemma bindList_missing (ps : List (String × String)) :
    ∀ rule : List (String × String),
      (∃ f ∈ rule.map Prod.fst, fieldMissing ps f = true) →
      ∃ g ∈ rule.map Prod.fst, fieldMissing ps g = true ∧
        bindList rule ps = .error (.MissingParameter g) := by
  intro rule
  induction rule with
  | nil => rintro ⟨f, hf, _⟩; simp at hf
  | cons cr rest ih =>
    rintro ⟨f, hf, hmiss⟩
    by_cases hc : fieldMissing ps cr.1 = true
    · refine ⟨cr.1, by simp, hc, ?_⟩
      cases hl : lookupParam ps cr.1 with
      | none => rw [bindList_cons, hl]
      | some v =>
        have htr := fieldMissing_true_some ps cr.1 v hl hc
        rw [bindList_cons, hl]
        simp [htr]
    · have hc' : fieldMissing ps cr.1 = false := by
        cases h : fieldMissing ps cr.1 with
        | false => rfl
        | true => exact absurd h hc
      rw [List.map_cons, List.mem_cons] at hf
      have hf' : f ∈ rest.map Prod.fst := by
        rcases hf with h | h
        · exact absurd hmiss (by rw [h]; simp [hc'])
        · exact h
      obtain ⟨g, hg, hgmiss, hbind⟩ := ih ⟨f, hf', hmiss⟩
      obtain ⟨v, hl, htr⟩ := fieldMissing_false ps cr.1 hc'
      refine ⟨g, by simp [hg], hgmiss, ?_⟩
      rw [bindList_cons, hl]
      simp [htr, hbind]

/-- If exactly one required field of a rule list is missing, `bindList`
names exactly that field. -/
lemma bindList_missing_unique (ps : List (String × String)) (f : String) :
    ∀ rule : List (String × String),
      f ∈ rule.map Prod.fst → fieldMissing ps f = true →
      (∀ g ∈ rule.map Prod.fst, g ≠ f → fieldMissing ps g = false) →
      bindList rule ps = .error (.MissingParameter f) := by
  intro rule
  induction rule with
  | nil => intro hf; simp at hf
  | cons cr rest ih =>
    intro hf hmiss hunique
    by_cases hc : cr.1 = f
    · subst hc
      cases hl : lookupParam ps cr.1 with
      | none => rw [bindList_cons, hl]
      | some v =>
        have htr := fieldMissing_true_some ps cr.1 v hl hmiss
        rw [bindList_cons, hl]
        simp [htr]
    · have hcm : fieldMissing ps cr.1 = false := hunique cr.1 (by simp) hc
      obtain ⟨v, hl, htr⟩ := fieldMissing_false ps cr.1 hcm
      rw [List.map_cons, List.mem_cons] at hf
      have hf' : f ∈ rest.map Prod.fst := by
        rcases hf with h | h
        · exact absurd h.symm hc
        · exact h
      have hrest := ih hf' hmiss (fun g hg hgf => hunique g (by simp [hg]) hgf)
      rw [bindList_cons, hl]
      simp [htr, hrest]

/-- On success, `bindList` returns exactly the rule mapped to remote names,
each raw caller value wrapped in a one-element sequence, with no other
transformation. -/
lemma bindList_ok_shape (ps : List (String × String)) :
    ∀ (rule : List (String × String)) (m : List (String × List String)),
      bindList rule ps = .ok m →
      m = rule.map (fun cr => (cr.2, [(lookupParam ps cr.1).getD ""])) := by
  intro rule
  induction rule with
  | nil => intro m hm; simpa [bindList] using hm.symm
  | cons cr rest ih =>
    intro m hm
    rw [bindList_cons] at hm
    cases hl : lookupParam ps cr.1 with
    | none => rw [hl] at hm; simp at hm
    | some v =>
      rw [hl] at hm
      simp only at hm
      by_cases htr : trimmedEmpty v = true
      · simp [htr] at hm
      · rw [if_neg htr] at hm
        cases hrest : bindList rest ps with
        | error e => rw [hrest] at hm; simp at hm
        | ok m' =>
          rw [hrest] at hm
          simp only [Except.ok.injEq] at hm
          subst hm
          simp [ih m' hrest, hl]

/-- Two parameter mappings that agree on every required field of a rule give
the same binding result. -/
lemma bindList_congr (ps ps' : List (String × String)) :
    ∀ rule : List (String × String),
      (∀ f ∈ rule.map Prod.fst, lookupParam ps' f = lookupParam ps f) →
      bindList rule ps' = bindList rule ps := by
  intro rule
  induction rule with
  | nil => intro _; rfl
  | cons cr rest ih =>
    intro hag
    have hhd : lookupParam ps' cr.1 = lookupParam ps cr.1 := hag cr.1 (by simp)
    have hrest := ih (fun f hf => hag f (by simp [hf]))
    rw [bindList_cons, bindList_cons, hhd, hrest]

/-- Appending entries whose keys differ from `f` does not change the lookup
of `f`. -/
lemma lookupParam_append (ps extra : List (String × String)) (f : String)
    (h : ∀ e ∈ extra, e.1 ≠ f) :
    lookupParam (ps ++ extra) f = lookupParam ps f := by
  induction ps with
  | nil =>
    simp only [List.nil_append]
    unfold lookupParam
    have hnone : extra.find? (fun p => p.1 == f) = none := by
      apply List.find?_eq_none.mpr
      intro e he
      simpa using h e he
    simp [hnone]
  | cons p ps ih =>
    unfold lookupParam
    by_cases hp : p.1 == f
    · simp [List.find?_cons, hp]
    · simp only [List.cons_append, List.find?_cons, hp]
      exact ih

/-! ## Lemmas about the Execution Poller -/

/-- The j-th sleep interval of the schedule, unfolded. -/
lemma intervalAt_succ (init cap j : Nat) :
    intervalAt init cap (j + 1) = min (2 * intervalAt init cap j) cap := rfl

/-- The time of the (j+1)-th query is the time of the j-th plus the j-th
interval. -/
lemma queryTime_succ (init cap j : Nat) :
    queryTime init cap (j + 1) = queryTime init cap j + intervalAt init cap j := rfl

/-- Every interval of the schedule stays within the cap. -/
lemma intervalAt_le_cap (init cap : Nat) (hic : init ≤ cap) :
    ∀ j, intervalAt init cap j ≤ cap := by
  intro j
  induction j with
  | zero => exact hic
  | succ j _ => rw [intervalAt_succ]; exact min_le_right _ _

/-- Every interval of the schedule is positive when the initial interval and
the cap are. -/
lemma intervalAt_pos (init cap : Nat) (hinit : 1 ≤ init) (hcap : 1 ≤ cap) :
    ∀ j, 1 ≤ intervalAt init cap j := by
  intro j
  induction j with
  | zero => exact hinit
  | succ j ih =>
    rw [intervalAt_succ]
    exact le_min (by omega) hcap

/-- Query times grow at least linearly when intervals are positive. -/
lemma queryTime_ge (init cap : Nat) (hinit : 1 ≤ init) (hcap : 1 ≤ cap) :
    ∀ j, j ≤ queryTime init cap j := by
  intro j
  induction j with
  | zero => exact Nat.zero_le _
  | succ j ih =>
    rw [queryTime_succ]
    have := intervalAt_pos init cap hinit hcap j
    omega

/-- If the first `k` queries all see a non-terminal status and each fits its
interval before the deadline, while query `k` sees a terminal status, the
polling loop returns that status with exactly `k + 1` queries issued.
Stated for an arbitrary starting point `m` of the loop. -/
lemma pollAux_reaches (remote : Nat → ExecutionStatus × List StepResult)
    (init cap deadline : Nat) :
    ∀ (k m fuel : Nat),
      (∀ j, j < k → ((remote (m + j)).1.isTerminal = false) ∧
        queryTime init cap (m + j) + intervalAt init cap (m + j) ≤ deadline) →
      ((remote (m + k)).1.isTerminal = true) →
      k < fuel →
      pollAux remote cap deadline fuel (queryTime init cap m) (intervalAt init cap m) m =
        { status := (remote (m + k)).1, steps := (remote (m + k)).2, queries := m + k + 1 } := by
  intro k
  induction k with
  | zero =>
    intro m fuel _ hterm hfuel
    cases fuel with
    | zero => omega
    | succ fl =>
      simp only [pollAux]
      rw [show m + 0 = m from rfl] at hterm
      simp [hterm]
  | succ k ih =>
    intro m fuel hk hterm hfuel
    cases fuel with
    | zero => omega
    | succ fl =>
      have h0 := hk 0 (Nat.succ_pos k)
      rw [Nat.add_zero] at h0
      simp only [pollAux]
      rw [if_neg (by simp [h0.1])]
      rw [if_neg (by omega)]
      rw [← queryTime_succ, ← intervalAt_succ]
      have hk' : ∀ j, j < k → ((remote (m + 1 + j)).1.isTerminal = false) ∧
          queryTime init cap (m + 1 + j) + intervalAt init cap (m + 1 + j) ≤ deadline := by
        intro j hj
        have := hk (j + 1) (by omega)
        rwa [show m + (j + 1) = m + 1 + j by omega] at this
      have hterm' : ((remote (m + 1 + k)).1.isTerminal = true) := by
        rwa [show m + (k + 1) = m + 1 + k by omega] at hterm
      have := ih (m + 1) fl hk' hterm' (by omega)
      rw [this]
      congr 1 <;> rw [show m + 1 + k = m + (k + 1) by omega]

/-- Whether a remote call is a stop/cancel request. -/
def isStopCall : RemoteCall → Bool
  | .stopExecution _ => true
  | _ => false

/-! ## Claims -/

/-- C1: The request surface exposes exactly one operation per supported
scenario, and each operation's fixed JSON body requires exactly the two
fields of the scenario table: EKS requires cluster_name and worker_id, ECS
requires cluster_name and container_instance_id, S3-to-Lambda requires
s3_bucket_name and lambda_function_arn; no other field is required by any
operation. -/
theorem api_one_operation_per_scenario :
    apiOperations.map (fun op => (op.path, op.method, operationRequiredFields op)) =
      [ ("/troubleshoot-eks-worker-node", "post", ["cluster_name", "worker_id"])
      , ("/troubleshoot-ecs-container-instance", "post",
          ["cluster_name", "container_instance_id"])
      , ("/troubleshoot-s3-lambda", "post", ["s3_bucket_name", "lambda_function_arn"]) ] := by
  rfl

/-- C2: For every scenario request in which a required field is absent or
empty after trimming, the system fails with MissingParameter naming exactly
that field, and no remote call at all (in particular no StartExecution) is
placed. -/
theorem missing_required_field_rejected
    (launch : String → List (String × List String) → Except String String)
    (remote : Nat → ExecutionStatus × List StepResult) (init cap deadline : Nat)
    (sc : Scenario) (ps : List (String × String)) (f : String)
    (hf : f ∈ requiredFields sc) (hmiss : fieldMissing ps f = true) :
    (∃ g ∈ requiredFields sc, fieldMissing ps g = true ∧
        routeRequest launch remote init cap deadline sc ps =
          (.error (.missingParameter g), [])) ∧
    ((∀ g ∈ requiredFields sc, g ≠ f → fieldMissing ps g = false) →
      routeRequest launch remote init cap deadline sc ps =
        (.error (.missingParameter f), [])) := by
  constructor
  · obtain ⟨g, hg, hgmiss, hbind⟩ := bindList_missing ps (bindingRule sc) ⟨f, hf, hmiss⟩
    refine ⟨g, hg, hgmiss, ?_⟩
    have hb : bindParams sc ps = .error (.MissingParameter g) := hbind
    simp [routeRequest, hb]
  · intro huni
    have hb : bindParams sc ps = .error (.MissingParameter f) :=
      bindList_missing_unique ps f (bindingRule sc) hf hmiss huni
    simp [routeRequest, hb]

/-- Witness for C2: the S3 scenario with the Lambda function field missing
fails with MissingParameter on lambda_function_arn and places no remote
call. -/
theorem missing_required_field_rejected_witness :
    ("lambda_function_arn" ∈ requiredFields .s3Lambda ∧
      fieldMissing [("s3_bucket_name", "my-test-bucket")] "lambda_function_arn" = true) ∧
    ((∃ g ∈ requiredFields Scenario.s3Lambda,
        fieldMissing [("s3_bucket_name", "my-test-bucket")] g = true ∧
        routeRequest (fun _ _ => .error "rejected") (fun _ => (.Pending, [])) 1 4 10
            .s3Lambda [("s3_bucket_name", "my-test-bucket")] =
          (.error (.missingParameter g), [])) ∧
      ((∀ g ∈ requiredFields Scenario.s3Lambda, g ≠ "lambda_function_arn" →
          fieldMissing [("s3_bucket_name", "my-test-bucket")] g = false) →
        routeRequest (fun _ _ => .error "rejected") (fun _ => (.Pending, [])) 1 4 10
            .s3Lambda [("s3_bucket_name", "my-test-bucket")] =
          (.error (.missingParameter "lambda_function_arn"), []))) :=
  ⟨⟨by decide, by decide⟩,
    missing_required_field_rejected (fun _ _ => .error "rejected")
      (fun _ => (.Pending, [])) 1 4 10 .s3Lambda [("s3_bucket_name", "my-test-bucket")]
      "lambda_function_arn" (by decide) (by decide)⟩

/-- C3: Parameter binding performs no transformation of caller values other
than wrapping each scalar string into a single-element ordered sequence
under the remote parameter name; in particular the EKS request of the spec
binds to exactly ClusterName and WorkerID singleton sequences. -/
theorem binder_wraps_scalars_only (sc : Scenario) (ps : List (String × String))
    (m : List (String × List String)) (h : bindParams sc ps = .ok m) :
    m = (bindingRule sc).map (fun cr => (cr.2, [(lookupParam ps cr.1).getD ""])) ∧
    bindParams .eksWorkerNode
        [("cluster_name", "production-cluster"), ("worker_id", "i-0abc123def456789")] =
      .ok [("ClusterName", ["production-cluster"]), ("WorkerID", ["i-0abc123def456789"])] :=
  ⟨bindList_ok_shape ps (bindingRule sc) m h, rfl⟩

/-- Witness for C3: the EKS request of the spec satisfies the binder
success hypothesis, and its bound map is exactly the rule-mapped
single-element wrapping of the raw values. -/
theorem binder_wraps_scalars_only_witness :
    bindParams .eksWorkerNode
        [("cluster_name", "production-cluster"), ("worker_id", "i-0abc123def456789")] =
      .ok [("ClusterName", ["production-cluster"]), ("WorkerID", ["i-0abc123def456789"])] ∧
    ([("ClusterName", ["production-cluster"]), ("WorkerID", ["i-0abc123def456789"])] =
      (bindingRule Scenario.eksWorkerNode).map (fun cr => (cr.2,
        [(lookupParam [("cluster_name", "production-cluster"),
            ("worker_id", "i-0abc123def456789")] cr.1).getD ""])) ∧
      bindParams .eksWorkerNode
          [("cluster_name", "production-cluster"), ("worker_id", "i-0abc123def456789")] =
        .ok [("ClusterName", ["production-cluster"]), ("WorkerID", ["i-0abc123def456789"])]) :=
  ⟨rfl, binder_wraps_scalars_only .eksWorkerNode
    [("cluster_name", "production-cluster"), ("worker_id", "i-0abc123def456789")]
    [("ClusterName", ["production-cluster"]), ("WorkerID", ["i-0abc123def456789"])] rfl⟩

/-- C4: Every validation failure response is an object with a detail list
whose entries each carry a field location, a message and an error type,
with 422 semantics, for all three scenario operations: each operation has a
422 response referencing HTTPValidationError, whose detail items are
ValidationError entries required to carry loc, msg and type. -/
theorem validation_error_shape :
    (apiOperations.all (fun op => op.responses.any
      (fun r => r.status == "422" &&
        r.schemaRef == "#/components/schemas/HTTPValidationError"))) = true ∧
    resolveRef "#/components/schemas/HTTPValidationError" = some httpValidationError ∧
    httpValidationError.properties.map (fun p => (p.name, p.type, p.itemsRef)) =
      [("detail", "array", "#/components/schemas/ValidationError")] ∧
    resolveRef "#/components/schemas/ValidationError" = some validationError ∧
    validationError.required = ["loc", "msg", "type"] :=
  ⟨rfl, rfl, rfl, rfl, rfl⟩

/-- C5: Unknown extra parameters supplied alongside the required fields are
ignored: they never cause a request to be rejected (schema validation is
preserved) and do not affect the binder result nor the whole routed
request, for every scenario operation. -/
theorem unknown_params_ignored
    (launch : String → List (String × List String) → Except String String)
    (remote : Nat → ExecutionStatus × List StepResult) (init cap deadline : Nat)
    (sc : Scenario) (ps extra : List (String × String))
    (hextra : ∀ e ∈ extra, e.1 ∉ requiredFields sc) :
    bindParams sc (ps ++ extra) = bindParams sc ps ∧
    routeRequest launch remote init cap deadline sc (ps ++ extra) =
      routeRequest launch remote init cap deadline sc ps ∧
    (bodyValid (scenarioBodySchema sc) ps = true →
      bodyValid (scenarioBodySchema sc) (ps ++ extra) = true) := by
  have hlook : ∀ f ∈ (bindingRule sc).map Prod.fst,
      lookupParam (ps ++ extra) f = lookupParam ps f := by
    intro f hf
    exact lookupParam_append ps extra f (fun e he hef => hextra e he (hef ▸ hf))
  have hbind : bindParams sc (ps ++ extra) = bindParams sc ps :=
    bindList_congr ps (ps ++ extra) (bindingRule sc) hlook
  refine ⟨hbind, ?_, ?_⟩
  · unfold routeRequest
    rw [hbind]
  · intro hv
    have hreq : (scenarioBodySchema sc).required = requiredFields sc := by
      cases sc <;> rfl
    unfold bodyValid at hv ⊢
    rw [hreq] at hv ⊢
    rw [List.all_eq_true] at hv ⊢
    intro f hf
    rw [lookupParam_append ps extra f (fun e he hef => hextra e he (hef ▸ hf))]
    exact hv f hf

/-- Witness for C5: adding an unknown region field to the EKS request
changes neither the binder result nor the routed request, and keeps the body
valid. -/
theorem unknown_params_ignored_witness :
    (∀ e ∈ [("region", "us-east-1")], e.1 ∉ requiredFields Scenario.eksWorkerNode) ∧
    (bindParams Scenario.eksWorkerNode
        ([("cluster_name", "production-cluster"), ("worker_id", "i-0abc123def456789")] ++
          [("region", "us-east-1")]) =
      bindParams Scenario.eksWorkerNode
        [("cluster_name", "production-cluster"), ("worker_id", "i-0abc123def456789")] ∧
    routeRequest (fun _ _ => .ok "exec-1") (fun _ => (.Success, [])) 1 4 10
        Scenario.eksWorkerNode
        ([("cluster_name", "production-cluster"), ("worker_id", "i-0abc123def456789")] ++
          [("region", "us-east-1")]) =
      routeRequest (fun _ _ => .ok "exec-1") (fun _ => (.Success, [])) 1 4 10
        Scenario.eksWorkerNode
        [("cluster_name", "production-cluster"), ("worker_id", "i-0abc123def456789")] ∧
    (bodyValid (scenarioBodySchema Scenario.eksWorkerNode)
        [("cluster_name", "production-cluster"), ("worker_id", "i-0abc123def456789")] = true →
      bodyValid (scenarioBodySchema Scenario.eksWorkerNode)
        ([("cluster_name", "production-cluster"), ("worker_id", "i-0abc123def456789")] ++
          [("region", "us-east-1")]) = true)) :=
  ⟨by decide,
    unknown_params_ignored (fun _ _ => .ok "exec-1") (fun _ => (.Success, [])) 1 4 10
      Scenario.eksWorkerNode
      [("cluster_name", "production-cluster"), ("worker_id", "i-0abc123def456789")]
      [("region", "us-east-1")] (by decide)⟩

/-- C6: This layer never cancels the launched remote execution: the IAM
policy of the execution role does not allow any SSM stop action (only
StartAutomationExecution and GetAutomationExecution among the automation
operations), and no run of the Router ever places a stop/cancel call, for
any remote behaviour, deadline and request — including runs whose deadline
elapses and end locally as TimedOut. -/
theorem never_cancels_remote_execution :
    policyAllows "ssm:StopAutomationExecution" = false ∧
    policyAllows "ssm:StartAutomationExecution" = true ∧
    policyAllows "ssm:GetAutomationExecution" = true ∧
    ∀ (launch : String → List (String × List String) → Except String String)
      (remote : Nat → ExecutionStatus × List StepResult) (init cap deadline : Nat)
      (sc : Scenario) (ps : List (String × String)),
      ((routeRequest launch remote init cap deadline sc ps).2.any isStopCall) = false := by
  refine ⟨by decide, by decide, by decide, ?_⟩
  intro launch remote init cap deadline sc ps
  simp only [routeRequest]
  cases hb : bindParams sc ps with
  | error e => cases e with | MissingParameter n => simp
  | ok bound =>
    dsimp only
    cases hl : launch (workflowId sc) bound with
    | error r => simp [isStopCall]
    | ok handle =>
      dsimp only
      simp only [List.any_eq_false, List.mem_cons]
      rintro x (hx | hx)
      · simp [hx, isStopCall]
      · rcases List.mem_map.mp hx with ⟨j, _, hj⟩
        simp [← hj, isStopCall]

/-- C7: For every polling run in which the remote engine reports a terminal
status before the deadline (all earlier queries observe a non-terminal
status and each wait fits within the deadline), the Poller returns that
exact status and performs no further status queries after observing it:
exactly k + 1 queries are issued in total. -/
theorem poller_returns_first_terminal
    (remote : Nat → ExecutionStatus × List StepResult)
    (init cap deadline k : Nat) (hinit : 1 ≤ init) (hcap : 1 ≤ cap)
    (hk : ∀ j, j < k → ((remote j).1.isTerminal = false) ∧
      queryTime init cap j + intervalAt init cap j ≤ deadline)
    (hterm : (remote k).1.isTerminal = true) :
    poll remote init cap deadline =
      { status := (remote k).1, steps := (remote k).2, queries := k + 1 } := by
  have hkd : k ≤ deadline := by
    cases k with
    | zero => exact Nat.zero_le _
    | succ n =>
      have h := (hk n (Nat.lt_succ_self n)).2
      have hq := queryTime_ge init cap hinit hcap (n + 1)
      rw [queryTime_succ] at hq
      omega
  have h := pollAux_reaches remote init cap deadline k 0 (deadline + 1)
    (by intro j hj; simpa using hk j hj) (by simpa using hterm) (by omega)
  simpa [poll, queryTime, intervalAt, pollSchedule] using h

/-- Witness for C7: a remote engine that is InProgress on the first query
and Success on the second; the Poller returns Success after exactly two
queries. -/
theorem poller_returns_first_terminal_witness :
    (1 ≤ 1 ∧ 1 ≤ 4 ∧
      (∀ j, j < 1 →
        (((fun n => if n = 0 then ((ExecutionStatus.InProgress, []) :
              ExecutionStatus × List StepResult)
            else (.Success, [])) j).1.isTerminal = false) ∧
        queryTime 1 4 j + intervalAt 1 4 j ≤ 10) ∧
      ((fun n => if n = 0 then ((ExecutionStatus.InProgress, []) :
            ExecutionStatus × List StepResult)
          else (.Success, [])) 1).1.isTerminal = true) ∧
    poll (fun n => if n = 0 then ((ExecutionStatus.InProgress, []) :
          ExecutionStatus × List StepResult)
        else (.Success, [])) 1 4 10 =
      { status := .Success, steps := [], queries := 2 } :=
  ⟨⟨by decide, by decide, by decide, by decide⟩,
    poller_returns_first_terminal
      (fun n => if n = 0 then ((ExecutionStatus.InProgress, []) :
          ExecutionStatus × List StepResult)
        else (.Success, [])) 1 4 10 1 (by decide) (by decide) (by decide) (by decide)⟩

/-- C8: The sequence of poll intervals is non-decreasing from its initial
value until it reaches the cap, it is sticky at the cap, it never exceeds
the cap, and consecutive status queries are separated by exactly one poll
interval (so at most one query happens within any elapsed interval). -/
theorem poller_backoff_bounded (init cap j : Nat)
    (hinit : 1 ≤ init) (hic : init ≤ cap) :
    intervalAt init cap j ≤ intervalAt init cap (j + 1) ∧
    intervalAt init cap j ≤ cap ∧
    (intervalAt init cap j = cap → intervalAt init cap (j + 1) = cap) ∧
    queryTime init cap (j + 1) = queryTime init cap j + intervalAt init cap j ∧
    queryTime init cap j < queryTime init cap (j + 1) := by
  have hle := intervalAt_le_cap init cap hic j
  have hpos := intervalAt_pos init cap hinit (le_trans hinit hic) j
  refine ⟨?_, hle, ?_, rfl, ?_⟩
  · rw [intervalAt_succ]
    exact le_min (by omega) hle
  · intro h
    rw [intervalAt_succ, h]
    exact Nat.min_eq_right (by omega)
  · rw [queryTime_succ]
    omega

/-- Witness for C8: at initial interval 2 with cap 30, the fourth interval
step keeps the schedule non-decreasing, capped and one-query-per-interval. -/
theorem poller_backoff_bounded_witness :
    (1 ≤ 2 ∧ 2 ≤ 30) ∧
    (intervalAt 2 30 3 ≤ intervalAt 2 30 4 ∧
      intervalAt 2 30 3 ≤ 30 ∧
      (intervalAt 2 30 3 = 30 → intervalAt 2 30 4 = 30) ∧
      queryTime 2 30 4 = queryTime 2 30 3 + intervalAt 2 30 3 ∧
      queryTime 2 30 3 < queryTime 2 30 4) :=
  ⟨⟨by decide, by decide⟩, poller_backoff_bounded 2 30 3 (by decide) (by decide)⟩

/-- C9: The Result Extractor is deterministic and side-effect free: two runs
given identical terminal status and identical ordered step results produce
identical reports whatever the ambient environment of each run, and a run
leaves the ambient environment unchanged. -/
theorem extractor_deterministic_pure :
    ∀ (w₁ w₂ : AmbientState) (st : ExecutionStatus) (steps : List StepResult),
      (runExtract w₁ st steps).1 = (runExtract w₂ st steps).1 ∧
      (runExtract w₁ st steps).2 = w₁ := by
  intro w₁ w₂ st steps
  exact ⟨rfl, rfl⟩

/-- C10: The overall request deadline the Router passes to the Poller is
strictly less than the hosting environment's hard wall-clock budget — the
deployed function's three-minute timeout — leaving margin for response
serialization. -/
theorem router_deadline_below_budget :
    routerDeadlineSeconds < actionGroupFunctionTimeoutSeconds ∧
    actionGroupFunctionTimeoutSeconds = 3 * 60 := by
  decide
